import Mathlib

/-!
Verification of the portfolio-ledger core of a simulated fund-trading
application, shallowly embedded from `src/store/simulationStore.ts` and
`src/store/fundStore.ts` (with the fund-data API client `getFundList`).
JavaScript numbers are modelled as exact rationals (`ℚ`); timestamps
(`Date.now()`) are threaded in as an explicit `now : Nat` parameter;
the random price tick of `updatePrices` is threaded in as an explicit
per-position change function.
-/

/-- Fund categories, from the `type` union in `simulationStore.ts`. -/
inductive FundType where
  | stock | bond | mix | money | index
deriving DecidableEq, Repr

/-- A catalog entry of the simulation store (`mockFunds` element shape). -/
structure Fund where
  code : String
  name : String
  type : FundType
  price : ℚ
deriving DecidableEq, Repr

/-- `Position` from `simulationStore.ts`. -/
structure Position where
  id : String
  fundCode : String
  fundName : String
  fundType : FundType
  shares : ℚ
  totalCost : ℚ
  avgCost : ℚ
  currentPrice : ℚ
  profitLoss : ℚ
  profitLossPercent : ℚ
  marketValue : ℚ
deriving DecidableEq, Repr

/-- Transaction type tag (`"buy" | "sell"`). -/
inductive TxType where
  | buy | sell
deriving DecidableEq, Repr

/-- Sell transaction subtype; source values are the strings
`"partial"` (here `part`) and `"full"`. -/
inductive SellKind where
  | part | full
deriving DecidableEq, Repr

/-- `Transaction` from `simulationStore.ts`; `createdAt : Date` is
modelled as the `Nat` timestamp it was constructed from. -/
structure Transaction where
  id : String
  fundCode : String
  fundName : String
  fundType : FundType
  type : TxType
  sellType : Option SellKind
  shares : ℚ
  price : ℚ
  totalAmount : ℚ
  createdAt : Nat
deriving DecidableEq, Repr

/-- `SimulationAccount` from `simulationStore.ts`. -/
structure SimulationAccount where
  totalAssets : ℚ
  cashBalance : ℚ
  profitLoss : ℚ
  profitLossPercent : ℚ
  positions : List Position
  transactions : List Transaction
deriving DecidableEq, Repr

/-- The `mockFunds` constant of `simulationStore.ts`. -/
def mockFunds : List Fund :=
  [ ⟨"F001", "成长优选混合", .mix, 2.456⟩,
    ⟨"F002", "稳健债券A", .bond, 1.234⟩,
    ⟨"F003", "科技先锋股票", .stock, 3.789⟩,
    ⟨"F004", "沪深300指数", .index, 1.876⟩,
    ⟨"F005", "货币增强", .money, 1.023⟩,
    ⟨"F006", "消费主题混合", .mix, 2.123⟩,
    ⟨"F007", "价值精选股票", .stock, 1.987⟩,
    ⟨"F008", "新能源指数", .index, 1.543⟩ ]

/-- The `initialState` constant of `simulationStore.ts`. -/
def initialState : SimulationAccount :=
  { totalAssets := 100000
    cashBalance := 100000
    profitLoss := 0
    profitLossPercent := 0
    positions := []
    transactions := [] }

/-- `mockFunds.find((f) => f.code === fundCode)`. -/
def lookupFund (funds : List Fund) (fundCode : String) : Option Fund :=
  funds.find? (fun f => f.code == fundCode)

/-- `account.positions.find((p) => p.fundCode === fundCode)`. -/
def findPosition (positions : List Position) (fundCode : String) : Option Position :=
  positions.find? (fun p => p.fundCode == fundCode)

/-- `positions.reduce((sum, p) => sum + p.marketValue, 0)`. -/
def sumMarketValue (positions : List Position) : ℚ :=
  positions.foldl (fun sum p => sum + p.marketValue) 0

/-- Outcome signal of `buyFund` (the source returns `void`: it returns
early on an unknown code, alerts and returns early on insufficient
cash, and otherwise commits the purchase). -/
inductive BuyOutcome where
  | ok | fundNotFound | insufficientFunds
deriving DecidableEq, Repr

/-- The arrow function mapped over the positions in the
existing-position branch of `buyFund` (lambda-lifted so its effect on
each position can be stated): positions matching the bought code get
the weighted-average cost-basis update, others are untouched. -/
def buyUpdate (fund : Fund) (fundCode : String)
    (newTotalCost totalShares newAvgCost : ℚ) (p : Position) : Position :=
  if p.fundCode == fundCode then
    { p with
        shares := totalShares
        totalCost := newTotalCost
        avgCost := newAvgCost
        currentPrice := fund.price
        marketValue := totalShares * fund.price
        profitLoss := totalShares * fund.price - newTotalCost
        profitLossPercent := (fund.price - newAvgCost) / newAvgCost * 100 }
  else p

/-- `buyFund` from `simulationStore.ts`, lambda-lifted over the module
constant `mockFunds` (pass `mockFunds` for the source behaviour) and
over the `Date.now()` timestamp `now`. Returns the new account
together with the outcome signal. -/
def buyFund (funds : List Fund) (account : SimulationAccount)
    (fundCode : String) (shares : ℚ) (now : Nat) :
    SimulationAccount × BuyOutcome :=
  match lookupFund funds fundCode with
  | none => (account, .fundNotFound)
  | some fund =>
    let totalAmount := shares * fund.price
    if totalAmount > account.cashBalance then
      (account, .insufficientFunds)
    else
      let newPositions : List Position :=
        match findPosition account.positions fundCode with
        | some existingPosition =>
          let newTotalCost := existingPosition.totalCost + fund.price * shares
          let totalShares := existingPosition.shares + shares
          let newAvgCost := newTotalCost / totalShares
          account.positions.map (buyUpdate fund fundCode newTotalCost totalShares newAvgCost)
        | none =>
          let newTotalCost := fund.price * shares
          account.positions ++
            [{ id := toString now
               fundCode := fund.code
               fundName := fund.name
               fundType := fund.type
               shares := shares
               totalCost := newTotalCost
               avgCost := fund.price
               currentPrice := fund.price
               marketValue := shares * fund.price
               profitLoss := 0
               profitLossPercent := 0 }]
      let newTransaction : Transaction :=
        { id := toString now
          fundCode := fund.code
          fundName := fund.name
          fundType := fund.type
          type := .buy
          sellType := none
          shares := shares
          price := fund.price
          totalAmount := totalAmount
          createdAt := now }
      let newCashBalance := account.cashBalance - totalAmount
      let newTotalAssets := sumMarketValue newPositions + newCashBalance
      ({ account with
           cashBalance := newCashBalance
           totalAssets := newTotalAssets
           profitLoss := newTotalAssets - 100000
           profitLossPercent := (newTotalAssets - 100000) / 100000 * 100
           positions := newPositions
           transactions := newTransaction :: account.transactions }, .ok)

/-- Result value of `sellFund`: `{ success: boolean; message?: string }`
(every return site of the source supplies a message). -/
structure SellResult where
  success : Bool
  message : String
deriving DecidableEq, Repr

/-- Stand-in for the source's unchecked non-null assertion
`mockFunds.find(...)!` in `sellFund`; never reached when the sold
position's code is in the catalog. -/
def defaultFund : Fund := ⟨"", "", .mix, 0⟩

/-- Models `Number.prototype.toFixed(2)` on an exact rational: the
integer number of hundredths nearest to the magnitude (ties toward the
larger integer, per the ECMAScript algorithm), rendered with exactly
two digits after the decimal point and the sign prepended. -/
def toFixed2 (q : ℚ) : String :=
  let sign := if q < 0 then "-" else ""
  let m : ℚ := if q < 0 then -q else q
  let n : Nat := (m * 100 + 1 / 2).floor.toNat
  sign ++ toString (n / 100) ++ "." ++
    (if n % 100 < 10 then "0" else "") ++ toString (n % 100)

/-- The arrow function mapped over the positions in the partial-sell
branch of `sellFund` (lambda-lifted so its effect on each position can
be stated): positions matching the sold code get the proportional
cost-basis reduction, others are untouched. -/
def sellUpdate (fund : Fund) (fundCode : String)
    (newTotalCost newShares : ℚ) (p : Position) : Position :=
  if p.fundCode == fundCode then
    { p with
        shares := newShares
        totalCost := newTotalCost
        avgCost := newTotalCost / newShares
        currentPrice := fund.price
        marketValue := newShares * fund.price
        profitLoss := newShares * fund.price - newTotalCost
        profitLossPercent :=
          (fund.price - newTotalCost / newShares) / (newTotalCost / newShares) * 100 }
  else p

/-- `sellFund` from `simulationStore.ts`, lambda-lifted over `mockFunds`
and the `Date.now()` timestamp, returning the new account and the
result record. -/
def sellFund (funds : List Fund) (account : SimulationAccount)
    (fundCode : String) (shares : ℚ) (now : Nat) :
    SimulationAccount × SellResult :=
  match findPosition account.positions fundCode with
  | none => (account, ⟨false, "未找到该持仓"⟩)
  | some position =>
    if shares ≤ 0 then
      (account, ⟨false, "卖出份额必须大于0"⟩)
    else if position.shares < shares then
      (account, ⟨false,
        "卖出份额超过持仓份额！你最多可卖出 " ++ toFixed2 position.shares ++ " 份"⟩)
    else
      let fund := (lookupFund funds fundCode).getD defaultFund
      let totalAmount := shares * fund.price
      let isFullSell := shares = position.shares
      let newPositions : List Position :=
        if isFullSell then
          account.positions.filter (fun p => p.fundCode != fundCode)
        else
          let newTotalCost := position.totalCost * (1 - shares / position.shares)
          let newShares := position.shares - shares
          account.positions.map (sellUpdate fund fundCode newTotalCost newShares)
      let newTransaction : Transaction :=
        { id := toString now
          fundCode := fund.code
          fundName := fund.name
          fundType := fund.type
          type := .sell
          sellType := some (if isFullSell then .full else .part)
          shares := shares
          price := fund.price
          totalAmount := totalAmount
          createdAt := now }
      let newCashBalance := account.cashBalance + totalAmount
      let newTotalAssets := sumMarketValue newPositions + newCashBalance
      ({ account with
           cashBalance := newCashBalance
           totalAssets := newTotalAssets
           profitLoss := newTotalAssets - 100000
           profitLossPercent := (newTotalAssets - 100000) / 100000 * 100
           positions := newPositions
           transactions := newTransaction :: account.transactions },
       ⟨true, if isFullSell then "清仓成功！" else "卖出成功！"⟩)

/-- `updatePrices` from `simulationStore.ts`; the random
`changePercent` drawn for each position is threaded in as `chg`. -/
def updatePrices (account : SimulationAccount) (chg : Position → ℚ) :
    SimulationAccount :=
  let newPositions := account.positions.map (fun position =>
    let newPrice := position.currentPrice * (1 + chg position)
    let marketValue := position.shares * newPrice
    { position with
        currentPrice := newPrice
        marketValue := marketValue
        profitLoss := marketValue - position.totalCost
        profitLossPercent := (newPrice - position.avgCost) / position.avgCost * 100 })
  let newTotalAssets := sumMarketValue newPositions + account.cashBalance
  { account with
      totalAssets := newTotalAssets
      profitLoss := newTotalAssets - 100000
      profitLossPercent := (newTotalAssets - 100000) / 100000 * 100
      positions := newPositions }

/-- `resetAccount` from `simulationStore.ts`. -/
def resetAccount (_ : SimulationAccount) : SimulationAccount := initialState

/-- One invocation of a mutating ledger operation; `buyFund` and
`sellFund` here always run against the source's `mockFunds` catalog,
as in the program. -/
inductive LedgerOp where
  | buy (fundCode : String) (shares : ℚ) (now : Nat)
  | sell (fundCode : String) (shares : ℚ) (now : Nat)
  | update (chg : Position → ℚ)
  | reset

/-- Apply one ledger operation to the account. -/
def applyOp (account : SimulationAccount) : LedgerOp → SimulationAccount
  | .buy fundCode shares now => (buyFund mockFunds account fundCode shares now).1
  | .sell fundCode shares now => (sellFund mockFunds account fundCode shares now).1
  | .update chg => updatePrices account chg
  | .reset => resetAccount account

/-- `true` unless the operation is a buy with non-positive shares. -/
def opBuySharesPos : LedgerOp → Bool
  | .buy _ shares _ => decide (0 < shares)
  | _ => true

/-- The `totalAssets` derivation invariant of the account. -/
def totalAssetsInv (account : SimulationAccount) : Prop :=
  account.totalAssets = account.cashBalance + sumMarketValue account.positions

/-- All held positions have strictly positive share counts. -/
def positionsPos (account : SimulationAccount) : Prop :=
  ∀ p ∈ account.positions, 0 < p.shares

/-- The fields of a `Position` that `updatePrices` must not touch. -/
def posFrame (p : Position) :
    String × String × String × FundType × ℚ × ℚ × ℚ :=
  (p.id, p.fundCode, p.fundName, p.fundType, p.shares, p.totalCost, p.avgCost)

namespace FundStore

/-- `FundInfo` from the fund-data API client (`src/lib/fundApi`). -/
structure FundInfo where
  code : String
  name : String
  type : String
  company : String
  value : ℚ
  day_growth : ℚ
deriving DecidableEq, Repr

/-- `Fund` from `fundStore.ts`; the `type` union is erased at runtime
(the client casts the provider's string), so it is kept as a string. -/
structure Fund where
  code : String
  name : String
  type : String
  company : Option String
  price : ℚ
  dayGrowth : ℚ
deriving DecidableEq, Repr

/-- The observable state of the fund store. -/
structure FundStoreState where
  popularFunds : List Fund
  customFunds : List Fund
  allFunds : List Fund
  isLoading : Bool
deriving DecidableEq, Repr

/-- The `mockFunds` constant of `fundStore.ts`. -/
def mockFunds : List Fund :=
  [ ⟨"000001", "华夏成长混合", "mix", none, 1.234, 0.5⟩,
    ⟨"110022", "易方达消费行业股票", "stock", none, 2.456, 1.2⟩,
    ⟨"161725", "招商中证白酒指数", "index", none, 1.567, -0.3⟩,
    ⟨"270002", "广发稳健增长混合", "mix", none, 1.876, 0.8⟩,
    ⟨"519732", "交银定期支付双息平衡混合", "mix", none, 1.543, 0.2⟩,
    ⟨"001618", "天弘中证电子ETF联接A", "index", none, 1.234, 0.6⟩,
    ⟨"005827", "易方达蓝筹精选混合", "mix", none, 1.987, 1.5⟩,
    ⟨"161025", "招商国证生物医药指数", "index", none, 1.321, -0.5⟩ ]

/-- The initial store state of `fundStore.ts`. -/
def initialStore : FundStoreState :=
  { popularFunds := mockFunds
    customFunds := []
    allFunds := mockFunds
    isLoading := false }

/-- `getFundList` from the fund-data API client: the outcome of the
HTTP fetch is threaded in as `provider`; the source catches every
failure internally (logging it) and returns the empty list, so the
function itself never throws. -/
def getFundList (provider : Except String (List FundInfo)) : List FundInfo :=
  match provider with
  | .ok funds => funds
  | .error _ => []

/-- The per-element conversion inside `loadPopularFunds`. -/
def convertFund (f : FundInfo) : Fund :=
  { code := f.code
    name := f.name
    type := f.type
    company := some f.company
    price := f.value
    dayGrowth := f.day_growth }

/-- One `Map.set` step of `getAllFunds`: JavaScript `Map` keeps the
original insertion position when a key is overwritten, else appends. -/
def upsertFund (acc : List Fund) (f : Fund) : List Fund :=
  if acc.any (fun g => g.code == f.code) then
    acc.map (fun g => if g.code == f.code then f else g)
  else
    acc ++ [f]

/-- `getAllFunds` from `fundStore.ts`: popular funds inserted first,
then custom funds overriding entries with the same code; returns the
updated state and the merged list. -/
def getAllFunds (st : FundStoreState) : FundStoreState × List Fund :=
  let allFunds := (st.popularFunds ++ st.customFunds).foldl upsertFund []
  ({ st with allFunds := allFunds }, allFunds)

/-- `loadPopularFunds` from `fundStore.ts`: sets the loading flag,
obtains the list through `getFundList` (which has already swallowed
any provider failure), converts it, overwrites `popularFunds`,
recomputes the merged view, and clears the loading flag. Its own
`catch` branch (which would keep the mock data) is unreachable because
`getFundList` never throws. -/
def loadPopularFunds (st : FundStoreState)
    (provider : Except String (List FundInfo)) : FundStoreState :=
  let st0 := { st with isLoading := true }
  let funds := getFundList provider
  let convertedFunds := funds.map convertFund
  let st1 := { st0 with popularFunds := convertedFunds }
  let st2 := (getAllFunds st1).1
  { st2 with isLoading := false }

end FundStore

/-- Sample held position used to instantiate the sell theorems. -/
def samplePos : Position :=
  { id := "1"
    fundCode := "F001"
    fundName := "成长优选混合"
    fundType := .mix
    shares := 100
    totalCost := 200
    avgCost := 2
    currentPrice := 2
    profitLoss := 0
    profitLossPercent := 0
    marketValue := 200 }

/-- Sample account holding `samplePos`, used to instantiate the sell
theorems. -/
def sampleAccount : SimulationAccount :=
  { totalAssets := 100000
    cashBalance := 99800
    profitLoss := 0
    profitLossPercent := 0
    positions := [samplePos]
    transactions := [] }

/-- Witness catalog for the first buy of the double-buy theorem. -/
def wFundA : Fund := ⟨"FX", "测试基金", .mix, 1⟩

/-- Witness catalog for the second buy of the double-buy theorem. -/
def wFundB : Fund := ⟨"FX", "测试基金", .mix, 2⟩

lemma findPosition_append (l₁ l₂ : List Position) (code : String) :
    findPosition (l₁ ++ l₂) code = (findPosition l₁ code).or (findPosition l₂ code) := by
  simp [findPosition, List.find?_append]

lemma findPosition_map_preserve (l : List Position) (g : Position → Position)
    (code : String) (hg : ∀ p, (g p).fundCode = p.fundCode) :
    findPosition (l.map g) code = (findPosition l code).map g := by
  simp only [findPosition, List.find?_map]
  congr 2
  funext p
  simp [Function.comp, hg]

lemma fundCode_eq_of_findPosition (l : List Position) (code : String) (p : Position)
    (h : findPosition l code = some p) : p.fundCode = code := by
  have h' : List.find? (fun q => q.fundCode == code) l = some p := h
  simpa using List.find?_some h'

lemma code_eq_of_lookupFund (funds : List Fund) (code : String) (f : Fund)
    (h : lookupFund funds code = some f) : f.code = code := by
  have h' : List.find? (fun g => g.code == code) funds = some f := h
  simpa using List.find?_some h'

/-- C3: a buy of a known fund whose cost exceeds the cash balance fails
with the insufficient-funds outcome and leaves the whole account
unchanged. -/
theorem buy_insufficient_funds_unchanged (funds : List Fund)
    (account : SimulationAccount) (fundCode : String) (shares : ℚ) (now : Nat)
    (fund : Fund) (hf : lookupFund funds fundCode = some fund)
    (hc : shares * fund.price > account.cashBalance) :
    buyFund funds account fundCode shares now = (account, .insufficientFunds) := by
  simp [buyFund, hf, hc]

theorem buy_insufficient_funds_unchanged_witness :
    lookupFund [wFundA] "FX" = some wFundA ∧
    (200000 : ℚ) * wFundA.price > initialState.cashBalance ∧
    buyFund [wFundA] initialState "FX" 200000 5 = (initialState, .insufficientFunds) :=
  ⟨rfl, by norm_num [wFundA, initialState],
    buy_insufficient_funds_unchanged [wFundA] initialState "FX" 200000 5 wFundA rfl
      (by norm_num [wFundA, initialState])⟩

/-- C6: a sell of more shares than held (on a position with a positive
balance) fails, changes no state, and its message reports the maximum
sellable amount (`position.shares`) formatted to two decimal places. -/
theorem sell_insufficient_shares_message (funds : List Fund)
    (account : SimulationAccount) (fundCode : String) (position : Position)
    (shares : ℚ) (now : Nat)
    (hpos : findPosition account.positions fundCode = some position)
    (hsh : 0 < position.shares) (hgt : position.shares < shares) :
    sellFund funds account fundCode shares now =
      (account,
        ⟨false, "卖出份额超过持仓份额！你最多可卖出 " ++ toFixed2 position.shares ++ " 份"⟩) := by
  have h1 : ¬ shares ≤ 0 := not_le.2 (lt_trans hsh hgt)
  simp [sellFund, hpos, h1, hgt]

theorem sell_insufficient_shares_message_witness :
    findPosition sampleAccount.positions "F001" = some samplePos ∧
    (0 : ℚ) < samplePos.shares ∧ samplePos.shares < 150 ∧
    sellFund mockFunds sampleAccount "F001" 150 7 =
      (sampleAccount,
        ⟨false, "卖出份额超过持仓份额！你最多可卖出 " ++ toFixed2 samplePos.shares ++ " 份"⟩) :=
  ⟨rfl, by norm_num [samplePos], by norm_num [samplePos],
    sell_insufficient_shares_message mockFunds sampleAccount "F001" samplePos 150 7 rfl
      (by norm_num [samplePos]) (by norm_num [samplePos])⟩

/-- C10: every failing `sellFund` call — position not found, non-positive
shares, or more shares than held — reports failure and leaves the whole
account unchanged. -/
theorem sellFund_failure_unchanged (funds : List Fund)
    (account : SimulationAccount) (fundCode : String) (shares : ℚ) (now : Nat)
    (h : findPosition account.positions fundCode = none ∨
      ∃ pos, findPosition account.positions fundCode = some pos ∧
        (shares ≤ 0 ∨ pos.shares < shares)) :
    (sellFund funds account fundCode shares now).1 = account ∧
    (sellFund funds account fundCode shares now).2.success = false := by
  rcases h with h | ⟨pos, hpos, hcase⟩
  · simp [sellFund, h]
  · rcases hcase with hle | hgt
    · simp [sellFund, hpos, hle]
    · by_cases hle : shares ≤ 0
      · simp [sellFund, hpos, hle]
      · simp [sellFund, hpos, hle, hgt]

theorem sellFund_failure_unchanged_witness :
    findPosition initialState.positions "F001" = none ∧
    (sellFund mockFunds initialState "F001" 10 3).1 = initialState ∧
    (sellFund mockFunds initialState "F001" 10 3).2.success = false :=
  ⟨rfl, sellFund_failure_unchanged mockFunds initialState "F001" 10 3 (Or.inl rfl)⟩

lemma map_posFrame_comp (l : List Position) (g : Position → Position)
    (hg : ∀ p, posFrame (g p) = posFrame p) :
    (l.map g).map posFrame = l.map posFrame := by
  rw [List.map_map]
  exact List.map_congr_left (fun p _ => hg p)

/-- C9: `updatePrices` never touches the cash balance or the transaction
history, and on every position it leaves the identity, share count and
cost-basis fields (`id`, `fundCode`, `fundName`, `fundType`, `shares`,
`totalCost`, `avgCost`) unchanged. -/
theorem updatePrices_frame (account : SimulationAccount) (chg : Position → ℚ) :
    (updatePrices account chg).cashBalance = account.cashBalance ∧
    (updatePrices account chg).transactions = account.transactions ∧
    (updatePrices account chg).positions.map posFrame = account.positions.map posFrame :=
  ⟨rfl, rfl, map_posFrame_comp account.positions _ (fun _ => rfl)⟩

/-- C7: when the list provider fails, `getFundList` swallows the failure
and returns the empty list, so `loadPopularFunds` overwrites the prior
popular set with the empty list instead of retaining it (its own catch
branch, meant to keep the mock data, is unreachable), and no failure
reaches the caller. -/
theorem loadPopularFunds_failure_drops_popular :
    (FundStore.loadPopularFunds FundStore.initialStore
        (Except.error "ProviderUnavailable")).popularFunds = [] ∧
    FundStore.initialStore.popularFunds ≠ [] :=
  ⟨rfl, by simp [FundStore.initialStore, FundStore.mockFunds]⟩

lemma totalAssetsInv_buyFund (funds : List Fund) (account : SimulationAccount)
    (fundCode : String) (shares : ℚ) (now : Nat) (h : totalAssetsInv account) :
    totalAssetsInv (buyFund funds account fundCode shares now).1 := by
  simp only [buyFund]
  split
  · exact h
  · split
    · exact h
    · simp only [totalAssetsInv]
      exact add_comm _ _

lemma totalAssetsInv_sellFund (funds : List Fund) (account : SimulationAccount)
    (fundCode : String) (shares : ℚ) (now : Nat) (h : totalAssetsInv account) :
    totalAssetsInv (sellFund funds account fundCode shares now).1 := by
  simp only [sellFund]
  split
  · exact h
  · split
    · exact h
    · split
      · exact h
      · simp only [totalAssetsInv]
        exact add_comm _ _

lemma totalAssetsInv_updatePrices (account : SimulationAccount)
    (chg : Position → ℚ) : totalAssetsInv (updatePrices account chg) := by
  simp only [updatePrices, totalAssetsInv]
  exact add_comm _ _

lemma totalAssetsInv_initialState : totalAssetsInv initialState := by
  norm_num [totalAssetsInv, initialState, sumMarketValue]

lemma totalAssetsInv_applyOp (account : SimulationAccount) (op : LedgerOp)
    (h : totalAssetsInv account) : totalAssetsInv (applyOp account op) := by
  cases op with
  | buy fundCode shares now => exact totalAssetsInv_buyFund _ _ _ _ _ h
  | sell fundCode shares now => exact totalAssetsInv_sellFund _ _ _ _ _ h
  | update chg => exact totalAssetsInv_updatePrices _ _
  | reset => exact totalAssetsInv_initialState

lemma totalAssetsInv_foldl (ops : List LedgerOp) (account : SimulationAccount)
    (h : totalAssetsInv account) :
    totalAssetsInv (List.foldl applyOp account ops) := by
  induction ops generalizing account with
  | nil => exact h
  | cons op ops ih => exact ih _ (totalAssetsInv_applyOp _ _ h)

/-- C5: after every sequence of ledger operations starting from the
initial account, `totalAssets` equals `cashBalance` plus the sum of the
positions' market values. -/
theorem totalAssets_derived_after_ops (ops : List LedgerOp) :
    totalAssetsInv (List.foldl applyOp initialState ops) :=
  totalAssetsInv_foldl ops initialState totalAssetsInv_initialState

lemma positionsPos_buyFund (funds : List Fund) (account : SimulationAccount)
    (fundCode : String) (shares : ℚ) (now : Nat)
    (hs : 0 < shares) (h : positionsPos account) :
    positionsPos (buyFund funds account fundCode shares now).1 := by
  simp only [buyFund]
  split
  · exact h
  · split
    · exact h
    · intro p hp
      simp only at hp
      split at hp
      · rename_i existingPosition hfound
        rcases List.mem_map.1 hp with ⟨q, hq, rfl⟩
        by_cases hqc : (q.fundCode == fundCode) = true
        · have hex : 0 < existingPosition.shares :=
            h existingPosition (List.mem_of_find?_eq_some hfound)
          simp [buyUpdate, hqc]
          exact add_pos hex hs
        · simp [buyUpdate, hqc]
          exact h q hq
      · rcases List.mem_append.1 hp with hq | hq
        · exact h p hq
        · rcases List.mem_singleton.1 hq with rfl
          exact hs

lemma positionsPos_sellFund (funds : List Fund) (account : SimulationAccount)
    (fundCode : String) (shares : ℚ) (now : Nat) (h : positionsPos account) :
    positionsPos (sellFund funds account fundCode shares now).1 := by
  simp only [sellFund]
  split
  · exact h
  · rename_i position hfound
    split
    · exact h
    · rename_i hnotle
      split
      · exact h
      · rename_i hnotgt
        intro p hp
        simp only at hp
        split at hp
        · exact h p (List.mem_of_mem_filter hp)
        · rename_i hnotfull
          rcases List.mem_map.1 hp with ⟨q, hq, rfl⟩
          by_cases hqc : (q.fundCode == fundCode) = true
          · simp [sellUpdate, hqc]
            have hlt : shares < position.shares :=
              lt_of_le_of_ne (not_lt.1 hnotgt) hnotfull
            linarith
          · simp [sellUpdate, hqc]
            exact h q hq

lemma positionsPos_updatePrices (account : SimulationAccount)
    (chg : Position → ℚ) (h : positionsPos account) :
    positionsPos (updatePrices account chg) := by
  intro p hp
  simp only [updatePrices] at hp
  rcases List.mem_map.1 hp with ⟨q, hq, rfl⟩
  exact h q hq

lemma positionsPos_initialState : positionsPos initialState := by
  intro p hp
  simp [initialState] at hp

lemma positionsPos_applyOp (account : SimulationAccount) (op : LedgerOp)
    (hop : opBuySharesPos op = true) (h : positionsPos account) :
    positionsPos (applyOp account op) := by
  cases op with
  | buy fundCode shares now =>
    exact positionsPos_buyFund _ _ _ _ _
      (by simpa [opBuySharesPos] using hop) h
  | sell fundCode shares now => exact positionsPos_sellFund _ _ _ _ _ h
  | update chg => exact positionsPos_updatePrices _ _ h
  | reset => exact positionsPos_initialState

lemma positionsPos_foldl (ops : List LedgerOp) (account : SimulationAccount)
    (hops : ops.all opBuySharesPos = true) (h : positionsPos account) :
    positionsPos (List.foldl applyOp account ops) := by
  induction ops generalizing account with
  | nil => exact h
  | cons op ops ih =>
    rw [List.all_cons, Bool.and_eq_true] at hops
    rcases hops with ⟨hop, hrest⟩
    exact ih _ hrest (positionsPos_applyOp _ _ hop h)

/-- C8 (amended): after every sequence of ledger operations starting from
the initial account in which every buy uses a positive share count, no
position with zero shares exists (the original claim fails because
`buyFund` itself never rejects non-positive share counts, so a buy of
zero shares creates a zero-share position). -/
theorem no_zero_share_with_positive_buys (ops : List LedgerOp)
    (hops : ops.all opBuySharesPos = true) :
    ∀ p ∈ (List.foldl applyOp initialState ops).positions, p.shares ≠ 0 :=
  fun p hp =>
    ne_of_gt (positionsPos_foldl ops initialState hops positionsPos_initialState p hp)

theorem no_zero_share_with_positive_buys_witness :
    ([LedgerOp.buy "F001" 100 0, LedgerOp.sell "F001" 40 1].all opBuySharesPos = true) ∧
    (∀ p ∈ (List.foldl applyOp initialState
        [LedgerOp.buy "F001" 100 0, LedgerOp.sell "F001" 40 1]).positions,
      p.shares ≠ 0) :=
  ⟨by norm_num [List.all, opBuySharesPos],
    no_zero_share_with_positive_buys _ (by norm_num [List.all, opBuySharesPos])⟩

/-- C8 counterexample: buying zero shares of a known fund from the
initial account succeeds past the cash check and creates a position
whose share count is zero, refuting the claimed invariant. -/
theorem buy_zero_creates_zero_share_position :
    ∃ p ∈ (List.foldl applyOp initialState [LedgerOp.buy "F001" 0 0]).positions,
      p.shares = 0 := by
  norm_num [applyOp, buyFund, lookupFund, findPosition, initialState, mockFunds,
    List.find?]


lemma sellUpdate_fundCode (fund : Fund) (fundCode : String) (tc ns : ℚ)
    (p : Position) : (sellUpdate fund fundCode tc ns p).fundCode = p.fundCode := by
  unfold sellUpdate
  split <;> rfl

lemma buyUpdate_fundCode (fund : Fund) (fundCode : String) (tc ts na : ℚ)
    (p : Position) : (buyUpdate fund fundCode tc ts na p).fundCode = p.fundCode := by
  unfold buyUpdate
  split <;> rfl

/-- C2: a partial sell (`0 < shares < position.shares`) succeeds and the
resulting position's average cost equals the pre-sell `totalCost /
shares` ratio (the pre-sell `avgCost`), and still satisfies
`avgCost = totalCost / shares`: average cost is invariant under partial
sells. -/
theorem sell_part_avgCost_invariant (funds : List Fund)
    (account : SimulationAccount) (fundCode : String) (position : Position)
    (shares : ℚ) (now : Nat)
    (hpos : findPosition account.positions fundCode = some position)
    (hs : 0 < shares) (hlt : shares < position.shares) :
    ∃ pos,
      findPosition ((sellFund funds account fundCode shares now).1).positions fundCode
          = some pos ∧
        pos.avgCost = position.totalCost / position.shares ∧
        pos.avgCost = pos.totalCost / pos.shares := by
  have h1 : ¬ shares ≤ 0 := not_le.2 hs
  have h2 : ¬ position.shares < shares := not_lt.2 (le_of_lt hlt)
  have h3 : ¬ (shares = position.shares) := ne_of_lt hlt
  have hbc : (position.fundCode == fundCode) = true := by
    simp [fundCode_eq_of_findPosition _ _ _ hpos]
  have hsell : (sellFund funds account fundCode shares now).1.positions =
      account.positions.map
        (sellUpdate ((lookupFund funds fundCode).getD defaultFund) fundCode
          (position.totalCost * (1 - shares / position.shares))
          (position.shares - shares)) := by
    simp [sellFund, hpos, h1, h2, h3]
  have hfind :
      findPosition ((sellFund funds account fundCode shares now).1).positions fundCode
        = some (sellUpdate ((lookupFund funds fundCode).getD defaultFund) fundCode
            (position.totalCost * (1 - shares / position.shares))
            (position.shares - shares) position) := by
    rw [hsell, findPosition_map_preserve _ _ _ (sellUpdate_fundCode _ _ _ _), hpos]
    rfl
  have hS : position.shares ≠ 0 := ne_of_gt (lt_trans hs hlt)
  have hSm : position.shares - shares ≠ 0 := ne_of_gt (sub_pos.2 hlt)
  refine ⟨_, hfind, ?_, ?_⟩
  · simp only [sellUpdate, hbc, if_true]
    show position.totalCost * (1 - shares / position.shares) /
        (position.shares - shares) = position.totalCost / position.shares
    field_simp
    ring
  · simp [sellUpdate, hbc]

theorem sell_part_avgCost_invariant_witness :
    findPosition sampleAccount.positions "F001" = some samplePos ∧
    (0 : ℚ) < 40 ∧ (40 : ℚ) < samplePos.shares ∧
    ∃ pos,
      findPosition ((sellFund mockFunds sampleAccount "F001" 40 7).1).positions "F001"
          = some pos ∧
        pos.avgCost = samplePos.totalCost / samplePos.shares ∧
        pos.avgCost = pos.totalCost / pos.shares :=
  ⟨rfl, by norm_num, by norm_num [samplePos],
    sell_part_avgCost_invariant mockFunds sampleAccount "F001" samplePos 40 7 rfl
      (by norm_num) (by norm_num [samplePos])⟩

/-- C4: selling exactly `position.shares` (a full sell of a held
position) succeeds with the full-liquidation message, removes every
entry for that code from the positions collection (no zero-share
residual remains), and records a sell transaction marked `full`. -/
theorem sell_full_removes_position (funds : List Fund)
    (account : SimulationAccount) (fundCode : String) (position : Position)
    (now : Nat)
    (hpos : findPosition account.positions fundCode = some position)
    (hsh : 0 < position.shares) :
    (sellFund funds account fundCode position.shares now).2.success = true ∧
    (sellFund funds account fundCode position.shares now).2.message = "清仓成功！" ∧
    (∀ p ∈ (sellFund funds account fundCode position.shares now).1.positions,
      p.fundCode ≠ fundCode) ∧
    ∃ tx,
      (sellFund funds account fundCode position.shares now).1.transactions.head?
          = some tx ∧ tx.type = TxType.sell ∧ tx.sellType = some SellKind.full := by
  have h1 : ¬ position.shares ≤ 0 := not_le.2 hsh
  have h2 : ¬ position.shares < position.shares := lt_irrefl _
  refine ⟨?_, ?_, ?_, ?_⟩
  · simp [sellFund, hpos, h1, h2]
  · simp [sellFund, hpos, h1, h2]
  · intro p hp
    simp [sellFund, hpos, h1, h2, List.mem_filter] at hp
    exact hp.2
  · simp [sellFund, hpos, h1, h2]

theorem sell_full_removes_position_witness :
    findPosition sampleAccount.positions "F001" = some samplePos ∧
    (0 : ℚ) < samplePos.shares ∧
    ((sellFund mockFunds sampleAccount "F001" samplePos.shares 9).2.success = true ∧
      (sellFund mockFunds sampleAccount "F001" samplePos.shares 9).2.message = "清仓成功！" ∧
      (∀ p ∈ (sellFund mockFunds sampleAccount "F001" samplePos.shares 9).1.positions,
        p.fundCode ≠ "F001") ∧
      ∃ tx,
        (sellFund mockFunds sampleAccount "F001" samplePos.shares 9).1.transactions.head?
            = some tx ∧ tx.type = TxType.sell ∧ tx.sellType = some SellKind.full) :=
  ⟨rfl, by norm_num [samplePos],
    sell_full_removes_position mockFunds sampleAccount "F001" samplePos 9 rfl
      (by norm_num [samplePos])⟩

lemma buyFund_fresh (funds : List Fund) (account : SimulationAccount)
    (fundCode : String) (f : Fund) (s : ℚ) (n : Nat)
    (hf : lookupFund funds fundCode = some f)
    (hnone : findPosition account.positions fundCode = none)
    (hc : ¬ s * f.price > account.cashBalance) :
    ∃ q, findPosition ((buyFund funds account fundCode s n).1).positions fundCode
        = some q ∧ q.totalCost = f.price * s ∧ q.shares = s := by
  have hcode : f.code = fundCode := code_eq_of_lookupFund _ _ _ hf
  have hbpos : (buyFund funds account fundCode s n).1.positions
      = account.positions ++
        [{ id := toString n
           fundCode := f.code
           fundName := f.name
           fundType := f.type
           shares := s
           totalCost := f.price * s
           avgCost := f.price
           currentPrice := f.price
           profitLoss := 0
           profitLossPercent := 0
           marketValue := s * f.price }] := by
    simp [buyFund, hf, hnone, hc]
  have hfind : findPosition ((buyFund funds account fundCode s n).1).positions fundCode
      = some { id := toString n
               fundCode := f.code
               fundName := f.name
               fundType := f.type
               shares := s
               totalCost := f.price * s
               avgCost := f.price
               currentPrice := f.price
               profitLoss := 0
               profitLossPercent := 0
               marketValue := s * f.price } := by
    rw [hbpos, findPosition_append, hnone]
    simp [findPosition, Option.or, hcode]
  exact ⟨_, hfind, rfl, rfl⟩

lemma buyFund_existing (funds : List Fund) (account : SimulationAccount)
    (fundCode : String) (f : Fund) (s : ℚ) (n : Nat) (pos : Position)
    (hf : lookupFund funds fundCode = some f)
    (hfound : findPosition account.positions fundCode = some pos)
    (hc : ¬ s * f.price > account.cashBalance) :
    ∃ q, findPosition ((buyFund funds account fundCode s n).1).positions fundCode
        = some q ∧ q.avgCost = (pos.totalCost + f.price * s) / (pos.shares + s) := by
  have hbc : (pos.fundCode == fundCode) = true := by
    simp [fundCode_eq_of_findPosition _ _ _ hfound]
  have hbpos : (buyFund funds account fundCode s n).1.positions
      = account.positions.map
        (buyUpdate f fundCode (pos.totalCost + f.price * s) (pos.shares + s)
          ((pos.totalCost + f.price * s) / (pos.shares + s))) := by
    simp [buyFund, hf, hfound, hc]
  have hfind : findPosition ((buyFund funds account fundCode s n).1).positions fundCode
      = some (buyUpdate f fundCode (pos.totalCost + f.price * s) (pos.shares + s)
          ((pos.totalCost + f.price * s) / (pos.shares + s)) pos) := by
    rw [hbpos, findPosition_map_preserve _ _ _ (buyUpdate_fundCode _ _ _ _ _), hfound]
    rfl
  refine ⟨_, hfind, ?_⟩
  simp [buyUpdate, hbc]

/-- C1: starting with no position in the code, two successive successful
buys of `s₁` shares at price `p₁` and `s₂` shares at price `p₂` leave a
position whose `avgCost` is the share-weighted average
`(p₁*s₁ + p₂*s₂) / (s₁ + s₂)`. -/
theorem buy_twice_avgCost_weighted (funds₁ funds₂ : List Fund)
    (account : SimulationAccount) (fundCode : String) (f₁ f₂ : Fund)
    (s₁ s₂ : ℚ) (n₁ n₂ : Nat)
    (hnone : findPosition account.positions fundCode = none)
    (hf₁ : lookupFund funds₁ fundCode = some f₁)
    (hf₂ : lookupFund funds₂ fundCode = some f₂)
    (hs₁ : 0 < s₁) (hs₂ : 0 < s₂)
    (hc₁ : ¬ s₁ * f₁.price > account.cashBalance)
    (hc₂ : ¬ s₂ * f₂.price > ((buyFund funds₁ account fundCode s₁ n₁).1).cashBalance) :
    ∃ pos,
      findPosition
          ((buyFund funds₂ (buyFund funds₁ account fundCode s₁ n₁).1 fundCode s₂ n₂).1).positions
          fundCode = some pos ∧
        pos.avgCost = (f₁.price * s₁ + f₂.price * s₂) / (s₁ + s₂) := by
  obtain ⟨q₁, hq₁, hq₁tc, hq₁sh⟩ :=
    buyFund_fresh funds₁ account fundCode f₁ s₁ n₁ hf₁ hnone hc₁
  obtain ⟨q₂, hq₂, hq₂avg⟩ :=
    buyFund_existing funds₂ _ fundCode f₂ s₂ n₂ q₁ hf₂ hq₁ hc₂
  exact ⟨q₂, hq₂, by rw [hq₂avg, hq₁tc, hq₁sh]⟩

theorem buy_twice_avgCost_weighted_witness :
    findPosition initialState.positions "FX" = none ∧
    lookupFund [wFundA] "FX" = some wFundA ∧
    lookupFund [wFundB] "FX" = some wFundB ∧
    (0 : ℚ) < 100 ∧ (0 : ℚ) < 50 ∧
    ¬ (100 : ℚ) * wFundA.price > initialState.cashBalance ∧
    ¬ (50 : ℚ) * wFundB.price > ((buyFund [wFundA] initialState "FX" 100 0).1).cashBalance ∧
    ∃ pos,
      findPosition
          ((buyFund [wFundB] (buyFund [wFundA] initialState "FX" 100 0).1 "FX" 50 1).1).positions
          "FX" = some pos ∧
        pos.avgCost = (wFundA.price * 100 + wFundB.price * 50) / (100 + 50) :=
  ⟨rfl, rfl, rfl, by norm_num, by norm_num,
    by norm_num [wFundA, initialState],
    by norm_num [buyFund, lookupFund, findPosition, initialState, wFundA, wFundB,
      sumMarketValue],
    buy_twice_avgCost_weighted [wFundA] [wFundB] initialState "FX" wFundA wFundB
      100 50 0 1 rfl rfl rfl (by norm_num) (by norm_num)
      (by norm_num [wFundA, initialState])
      (by norm_num [buyFund, lookupFund, findPosition, initialState, wFundA, wFundB,
        sumMarketValue])⟩
